import Mathlib

/-!
Verification of the dnavest-demo API gateway request pipeline.

This file gives a shallow embedding, in Lean 4, of the gateway code:
  - src/api-gateway/main.go                      (route wiring, CORS, reverse proxy)
  - src/api-gateway/middleware/circuitbreaker.go (breaker middleware and its settings)
  - the JWT authentication middleware            (middleware/jwt.go)
  - the rate-limit middleware and the service registry (middleware/ratelimit.go,
    router/registry.go)

Machine integers of the Go code are modelled as Nat (all counters are small and
reset per window or generation; overflow is unreachable in every property
below).  Wall-clock time is modelled as Nat seconds; the Go zero time is the
value none of an Option Nat.  Third-party libraries that the gateway calls
(sony/gobreaker, golang-jwt/jwt/v5, go-chi/cors, go-redis) are embedded from
their documented semantics, field by field, as noted at each definition.
-/

/-! ## HTTP response writer

Models net/http: the first WriteHeader commits the status, later calls are
ignored; a Write before any WriteHeader implicitly commits status 200.
headerLog records every WriteHeader call (even superfluous ones) so that the
status-capturing wrapper of circuitbreaker.go can be expressed: the wrapper
stores the code of every WriteHeader made through it, initial value 200. -/

structure RWriter where
  status : Option Nat
  body : String
  headerLog : List Nat
deriving DecidableEq

def emptyWriter : RWriter := ⟨none, "", []⟩

def RWriter.writeHeader (w : RWriter) (code : Nat) : RWriter :=
  { w with
    status := if w.status.isNone then some code else w.status
    headerLog := w.headerLog ++ [code] }

def RWriter.write (w : RWriter) (s : String) : RWriter :=
  { w with
    status := if w.status.isNone then some 200 else w.status
    body := w.body ++ s }

/-- The status code seen by the capturing wrapper of circuitbreaker.go during
one inner handler run: the last WriteHeader code appended while the inner
handler ran, or 200 (the initializer of the wrapper) if it made none. -/
def capturedStatus (before after : RWriter) : Nat :=
  (after.headerLog.drop before.headerLog.length).getLastD 200

/-- A finished response as the client sees it: if the handler never wrote
anything, net/http sends 200 with an empty body. -/
def RWriter.finalize (w : RWriter) : Nat × String := (w.status.getD 200, w.body)

/-! ## Structured JSON error bodies (literal strings of the source) -/

def jsonErr (code msg : String) : String :=
  "\x7b\"error\":\"" ++ code ++ "\",\"message\":\"" ++ msg ++ "\"\x7d"

def rateLimitBody : String := jsonErr "rate limit exceeded" "too many requests"

def breakerOpenBody : String := jsonErr "service unavailable" "circuit breaker is open"

def healthBody : String := "\x7b\"status\":\"healthy\",\"service\":\"api-gateway\"\x7d"

/-! ## Redis model (shared counter store)

A store entry holds the counter value and an optional expiry instant (none =
no TTL, the key persists).  A key whose expiry has passed behaves as absent:
GET misses it and INCR recreates it at 1, exactly as Redis TTL semantics.
Store updates are modelled by consing, which shadows older entries under
lookup, matching map assignment observationally. -/

def RStore := List (String × Nat × Option Nat)

instance : DecidableEq RStore := by unfold RStore; infer_instance

def redisLookup (store : RStore) (key : String) : Option (Nat × Option Nat) :=
  List.lookup key store

/-- Redis GET of a counter at time now: none when the key is absent or its
TTL has expired (a Redis key with expiry e is gone once now is at least e). -/
def redisGet (store : RStore) (key : String) (now : Nat) : Option Nat :=
  match redisLookup store key with
  | none => none
  | some (c, none) => some c
  | some (c, some e) => if now < e then some c else none

def redisInsert (store : RStore) (key : String) (v : Nat × Option Nat) : RStore :=
  (key, v) :: store

/-- The increment pipeline of ratelimit.go: INCR key, and additionally
EXPIRE key duration when the previously read count was 0.  INCR on an absent
or expired key recreates it at 1 with no TTL; on a live key it increments in
place keeping the TTL. -/
def redisIncrExpire (store : RStore) (key : String) (count : Nat) (now duration : Nat) :
    RStore :=
  let newVal : Nat × Option Nat :=
    match redisLookup store key with
    | some (c, some e) => if now < e then (c + 1, some e) else (1, none)
    | some (c, none) => (c + 1, none)
    | none => (1, none)
  let withTTL : Nat × Option Nat :=
    if count = 0 then (newVal.1, some (now + duration)) else newVal
  redisInsert store key withTTL

/-! ## Rate limiter (middleware/ratelimit.go)

The store can be unreachable: getFails models the initial GET returning an
error other than redis.Nil, execFails models the increment pipeline failing.
Both are external conditions of the shared store, supplied per request. -/

structure RedisFaults where
  getFails : Bool
  execFails : Bool
deriving DecidableEq

def noFaults : RedisFaults := ⟨false, false⟩

structure RLCfg where
  limit : Nat
  duration : Nat
deriving DecidableEq

/-- The limiter the gateway constructs: NewRateLimiter(redisClient, 100,
time.Minute), in seconds. -/
def gatewayRL : RLCfg := ⟨100, 60⟩

/-- One RateLimit decision, translated branch by branch from ratelimit.go.
Returns (allowed?, store after the request).
  - GET fails with a non-Nil error: allow, store untouched (fail-open);
  - key absent (redis.Nil): count reads as 0;
  - count at or above the limit: deny, store untouched;
  - increment pipeline fails: allow, store untouched (fail-open);
  - otherwise: allow with the incremented counter. -/
def rlStep (cfg : RLCfg) (faults : RedisFaults) (store : RStore) (now : Nat)
    (key : String) : Bool × RStore :=
  if faults.getFails then (true, store)
  else
    let count := (redisGet store key now).getD 0
    if cfg.limit ≤ count then (false, store)
    else if faults.execFails then (true, store)
    else (true, redisIncrExpire store key count now cfg.duration)

/-- Runs one rlStep per time in the list against a reachable store, collecting
the allow/deny decisions in order. -/
def rlRun (cfg : RLCfg) (key : String) (store : RStore) : List Nat → List Bool × RStore
  | [] => ([], store)
  | t :: ts =>
    let (b, store') := rlStep cfg noFaults store t key
    let (bs, store'') := rlRun cfg key store' ts
    (b :: bs, store'')

/-! ## Circuit breaker (middleware/circuitbreaker.go + sony/gobreaker)

The breaker engine is the sony/gobreaker library, embedded here field by
field from its documented state machine; the settings are the literal ones of
NewCircuitBreaker in circuitbreaker.go: MaxRequests 3, Interval 60 s,
Timeout 30 s, and the ReadyToTrip closure of lines 21-24. -/

structure Counts where
  requests : Nat
  totalSuccesses : Nat
  totalFailures : Nat
  consecutiveSuccesses : Nat
  consecutiveFailures : Nat
deriving DecidableEq

def Counts.clear : Counts := ⟨0, 0, 0, 0, 0⟩

def Counts.onRequest (c : Counts) : Counts := { c with requests := c.requests + 1 }

def Counts.onSuccess (c : Counts) : Counts :=
  { c with
    totalSuccesses := c.totalSuccesses + 1
    consecutiveSuccesses := c.consecutiveSuccesses + 1
    consecutiveFailures := 0 }

def Counts.onFailure (c : Counts) : Counts :=
  { c with
    totalFailures := c.totalFailures + 1
    consecutiveFailures := c.consecutiveFailures + 1
    consecutiveSuccesses := 0 }

inductive BState where
  | closed
  | opened
  | halfOpen
deriving DecidableEq

inductive BreakerErr where
  | errOpenState
  | errTooManyRequests
deriving DecidableEq

def cbMaxRequests : Nat := 3
def cbInterval : Nat := 60
def cbTimeout : Nat := 30

/-- The ReadyToTrip closure of circuitbreaker.go lines 21-24:
requests at least 3 and failures/requests at least 0.6.  The Go code compares
float64(TotalFailures)/float64(Requests) with the literal 0.6; for counters
that fit in uint32 the comparison is exact-rational: 5*failures at least
3*requests, which is the form used here (the nearest float64 below 3/5 is
within 2.3e-17, while the nearest ratio of uint32 counters distinct from 3/5
differs from it by more than 4e-11). -/
def readyToTrip (c : Counts) : Prop :=
  3 ≤ c.requests ∧ 3 * c.requests ≤ 5 * c.totalFailures

instance (c : Counts) : Decidable (readyToTrip c) := by
  unfold readyToTrip; infer_instance

structure Breaker where
  state : BState
  counts : Counts
  expiry : Option Nat
  generation : Nat
deriving DecidableEq

/-- gobreaker's toNewGeneration: clear the counts, bump the generation, and
set the expiry for the new state (closed: now + Interval since Interval > 0;
opened: now + Timeout; halfOpen: the zero time). -/
def Breaker.toNewGeneration (br : Breaker) (now : Nat) : Breaker :=
  { br with
    counts := Counts.clear
    generation := br.generation + 1
    expiry :=
      match br.state with
      | .closed => if cbInterval = 0 then none else some (now + cbInterval)
      | .opened => some (now + cbTimeout)
      | .halfOpen => none }

def Breaker.setState (br : Breaker) (s : BState) (now : Nat) : Breaker :=
  if br.state = s then br else ({ br with state := s }).toNewGeneration now

/-- A freshly constructed breaker: gobreaker.NewCircuitBreaker runs
toNewGeneration at construction time, in the closed state. -/
def Breaker.new (now : Nat) : Breaker :=
  Breaker.toNewGeneration ⟨.closed, Counts.clear, none, 0⟩ now

/-- The Go test !expiry.IsZero() && expiry.Before(now) of the closed branch
of gobreaker's currentState. -/
def Breaker.closedRolls (br : Breaker) (now : Nat) : Bool :=
  br.expiry.isSome && decide (br.expiry.getD 0 < now)

/-- The Go test expiry.Before(now) of the opened branch (the zero time is
before every positive instant). -/
def Breaker.openTimedOut (br : Breaker) (now : Nat) : Bool :=
  decide (br.expiry.getD 0 < now)

/-- gobreaker's currentState: in closed, roll to a new generation when the
Interval has elapsed; in opened, move to halfOpen when the Timeout has
elapsed; halfOpen is time-independent. -/
def Breaker.currentState (br : Breaker) (now : Nat) : Breaker :=
  match br.state with
  | .closed => if br.closedRolls now then br.toNewGeneration now else br
  | .opened => if br.openTimedOut now then br.setState .halfOpen now else br
  | .halfOpen => br

inductive BeforeRes where
  | grant (generation : Nat)
  | reject (e : BreakerErr)
deriving DecidableEq

/-- gobreaker's beforeRequest: opened rejects with ErrOpenState; halfOpen
rejects with ErrTooManyRequests once MaxRequests requests of the current
generation have been admitted; otherwise the request is counted and admitted
under the current generation. -/
def Breaker.beforeRequest (br : Breaker) (now : Nat) : Breaker × BeforeRes :=
  let br := br.currentState now
  match br.state with
  | .opened => (br, .reject .errOpenState)
  | .halfOpen =>
    if cbMaxRequests ≤ br.counts.requests then (br, .reject .errTooManyRequests)
    else ({ br with counts := br.counts.onRequest }, .grant br.generation)
  | .closed => ({ br with counts := br.counts.onRequest }, .grant br.generation)

/-- gobreaker's onSuccess: in halfOpen, close once ConsecutiveSuccesses
reaches MaxRequests. -/
def Breaker.recordSuccess (br : Breaker) (now : Nat) : Breaker :=
  match br.state with
  | .closed => { br with counts := br.counts.onSuccess }
  | .halfOpen =>
    let br := { br with counts := br.counts.onSuccess }
    if cbMaxRequests ≤ br.counts.consecutiveSuccesses then br.setState .closed now else br
  | .opened => br

/-- gobreaker's onFailure: in closed, trip to opened when ReadyToTrip holds of
the updated counts; in halfOpen, any failure reopens. -/
def Breaker.recordFailure (br : Breaker) (now : Nat) : Breaker :=
  match br.state with
  | .closed =>
    let br := { br with counts := br.counts.onFailure }
    if readyToTrip br.counts then br.setState .opened now else br
  | .halfOpen => br.setState .opened now
  | .opened => br

/-- gobreaker's afterRequest: outcomes of an older generation are dropped. -/
def Breaker.afterRequest (br : Breaker) (before : Nat) (success : Bool) (now : Nat) :
    Breaker :=
  let br := br.currentState now
  if br.generation ≠ before then br
  else if success then br.recordSuccess now else br.recordFailure now

/-- gobreaker's Execute with the outcome of the wrapped function given as a
Bool (the middleware derives it from the captured response status): returns
the breaker state afterwards, and the admission error if the call was
rejected without running the function. -/
def Breaker.execute (br : Breaker) (now : Nat) (success : Bool) :
    Breaker × Option BreakerErr :=
  match br.beforeRequest now with
  | (br', .reject e) => (br', some e)
  | (br', .grant gen) => (br'.afterRequest gen success now, none)

/-! ## JWT authentication (the JWT middleware of the gateway)

Token strings are opaque; an environment maps a token string to its semantic
content (none = a string jwt.Parse cannot decode at all).  jwtParse embeds
golang-jwt/jwt/v5 Parse with the key function of the middleware: the key
function rejects any non-HMAC signing method (including alg "none"); Parse
then verifies the HMAC signature against the secret and validates the
registered claims, failing on an expired token.  When Parse returns a nil
error the token is Valid and its claims are MapClaims (the default claims
type), so those two code branches of the middleware cannot fire on a
successfully parsed token. -/

inductive JAlg where
  | hmac
  | other
deriving DecidableEq

structure JWTTok where
  alg : JAlg
  signedWith : String
  expired : Bool
  userId : String
  email : String
deriving DecidableEq

inductive JWTErr where
  | malformed
  | badAlg
  | badSig
  | expiredTok
deriving DecidableEq

def jwtParse (tokens : String → Option JWTTok) (secret : String) (s : String) :
    Except JWTErr JWTTok :=
  match tokens s with
  | none => .error .malformed
  | some t =>
    if t.alg ≠ .hmac then .error .badAlg
    else if t.signedWith ≠ secret then .error .badSig
    else if t.expired then .error .expiredTok
    else .ok t

/-- The default JWT secret of main.go (JWT_SECRET unset). -/
def jwtSecret : String := "your-secret-key-change-in-production"

/-! ## Requests, environment, world, handlers -/

structure Request where
  method : String
  path : String
  headers : List (String × String)
  remoteAddr : String
  ctxUserId : Option String := none
  ctxEmail : Option String := none

/-- http.Header.Get: the value of the header, or the empty string. -/
def Request.getHeader (r : Request) (k : String) : String :=
  (List.lookup k r.headers).getD ""

/-- The collaborators outside the gateway process: the backend services
(what status and body each writes for a forwarded request) and the meaning
of token strings. -/
structure Env where
  backend : String → Request → Nat × String
  tokens : String → Option JWTTok

/-- The per-request mutable world: the response writer, the shared Redis
store and its reachability, the three named breakers, the trace of backend
services actually contacted, and the current time. -/
structure World where
  writer : RWriter
  store : RStore
  faults : RedisFaults
  breakers : List (String × Breaker)
  backendCalls : List String
  now : Nat

def World.getBreaker (wld : World) (name : String) : Breaker :=
  (List.lookup name wld.breakers).getD (Breaker.new wld.now)

def World.setBreaker (wld : World) (name : String) (br : Breaker) : World :=
  { wld with breakers := (name, br) :: wld.breakers }

def World.writeErr (wld : World) (status : Nat) (body : String) : World :=
  { wld with writer := (wld.writer.writeHeader status).write body }

def Handler : Type := Env → Request → World → World

/-! ## The middleware chain (translated from main.go and the middleware files) -/

/-- Go strings.Split(s, " "): split at every space, keeping empty parts. -/
def splitSpaces (s : String) : List String :=
  (s.data.splitOn ' ').map (fun l => String.mk l)

/-- Go strings.HasPrefix / chi prefix routing. -/
def strHasPrefix (s p : String) : Bool :=
  List.isPrefixOf p.data s.data

/-- The rate-limit key of ratelimit.go: the X-Real-IP header, falling back to
RemoteAddr, under the ratelimit: prefix. -/
def clientKey (req : Request) : String :=
  "ratelimit:" ++
    (if req.getHeader "X-Real-IP" ≠ "" then req.getHeader "X-Real-IP" else req.remoteAddr)

/-- The rate-limit middleware of ratelimit.go: deny writes 429 with the
literal JSON body and stops the chain. -/
def rateLimit (next : Handler) : Handler := fun env req wld =>
  let res := rlStep gatewayRL wld.faults wld.store wld.now (clientKey req)
  if res.1 then next env req { wld with store := res.2 }
  else { wld with writer := (wld.writer.writeHeader 429).write rateLimitBody }

/-- The JWT middleware: reject with 401 and the structured body on a missing
header, a malformed header, any jwt.Parse error, or a failed claims cast;
otherwise put user_id and email into the request context and continue.  Every
jwt.Parse error is reported with the same message "invalid token". -/
def authenticate (secret : String) (next : Handler) : Handler := fun env req wld =>
  let authHeader := req.getHeader "Authorization"
  if authHeader = "" then
    wld.writeErr 401 (jsonErr "unauthorized" "missing authorization header")
  else
    let parts := splitSpaces authHeader
    if parts.length ≠ 2 ∨ parts.getD 0 "" ≠ "Bearer" then
      wld.writeErr 401 (jsonErr "unauthorized" "invalid authorization header format")
    else
      let tokenString := parts.getD 1 ""
      match jwtParse env.tokens secret tokenString with
      | .error _ => wld.writeErr 401 (jsonErr "unauthorized" "invalid token")
      | .ok t =>
        next env { req with ctxUserId := some t.userId, ctxEmail := some t.email } wld

/-- The circuit-breaker middleware of circuitbreaker.go.  Execute admits or
rejects via beforeRequest; when admitted, the inner handler runs against the
status-capturing wrapper and its final captured status decides the recorded
outcome (failure exactly when it is at least 500, in which case the wrapped
function returns http.ErrAbortHandler).  A rejection with ErrOpenState writes
the 503 JSON body; any other non-nil error writes nothing at all. -/
def cbMiddleware (name : String) (next : Handler) : Handler := fun env req wld =>
  match (wld.getBreaker name).beforeRequest wld.now with
  | (br', .reject e) =>
    let wld := wld.setBreaker name br'
    if e = .errOpenState then
      { wld with writer := (wld.writer.writeHeader 503).write breakerOpenBody }
    else wld
  | (br', .grant gen) =>
    let wld1 := wld.setBreaker name br'
    let wld2 := next env req wld1
    let status := capturedStatus wld1.writer wld2.writer
    wld2.setBreaker name ((wld2.getBreaker name).afterRequest gen (status < 500) wld2.now)

/-- createProxy of main.go: answer OPTIONS directly with 200 and an empty
body; otherwise forward to the backend, streaming its status and body back,
and record the backend call. -/
def createProxy (service : String) : Handler := fun env req wld =>
  if req.method = "OPTIONS" then
    { wld with writer := wld.writer.writeHeader 200 }
  else
    let resp := env.backend service req
    { wld with
      writer := (wld.writer.writeHeader resp.1).write resp.2
      backendCalls := wld.backendCalls ++ [service] }

/-- go-chi/cors Handler: an OPTIONS request carrying an
Access-Control-Request-Method header is a pre-flight, answered directly with
200 and an empty body, stopping the chain; everything else only gains CORS
response headers and continues. -/
def corsHandler (next : Handler) : Handler := fun env req wld =>
  if req.method = "OPTIONS" ∧ req.getHeader "Access-Control-Request-Method" ≠ "" then
    { wld with writer := wld.writer.writeHeader 200 }
  else next env req wld

inductive RouteChoice where
  | health
  | auth
  | data
  | process
  | notFound
deriving DecidableEq

/-- The route dispatch of main.go: the health endpoint, then the three
prefix-mounted route groups of the chi router. -/
def routeOf (req : Request) : RouteChoice :=
  if req.method = "GET" ∧ req.path = "/health" then .health
  else if strHasPrefix req.path "/api/v1/auth/" then .auth
  else if strHasPrefix req.path "/api/v1/data/" then .data
  else if strHasPrefix req.path "/api/v1/process/" then .process
  else .notFound

/-- The per-route middleware chains exactly as wired in main.go:
  - auth route:    rate limiter, then breaker auth-service, then proxy;
  - data route:    rate limiter, then JWT authentication, then breaker
                   go-api, then proxy (this is the order of the r.Use calls
                   on lines 99-104);
  - process route: rate limiter, then breaker python-processor, then proxy. -/
def router : Handler := fun env req wld =>
  match routeOf req with
  | .health => { wld with writer := (wld.writer.writeHeader 200).write healthBody }
  | .auth => rateLimit (cbMiddleware "auth-service" (createProxy "auth-service")) env req wld
  | .data =>
    rateLimit (authenticate jwtSecret
      (cbMiddleware "go-api" (createProxy "go-api"))) env req wld
  | .process =>
    rateLimit (cbMiddleware "python-processor" (createProxy "python-processor")) env req wld
  | .notFound => { wld with writer := (wld.writer.writeHeader 404).write "404 page not found\n" }

def gatewayHandle : Handler := corsHandler router

/-- One inbound request served by the gateway: a fresh response writer and an
empty backend-call trace, against the given store, store faults, breakers and
clock. -/
def serve (env : Env) (req : Request) (store : RStore) (faults : RedisFaults)
    (breakers : List (String × Breaker)) (now : Nat) : World :=
  gatewayHandle env req ⟨emptyWriter, store, faults, breakers, [], now⟩

/-- The response the client receives for one served request. -/
def serveResp (env : Env) (req : Request) (store : RStore) (faults : RedisFaults)
    (breakers : List (String × Breaker)) (now : Nat) : Nat × String :=
  (serve env req store faults breakers now).writer.finalize

/-- The backend services contacted while serving one request. -/
def serveCalls (env : Env) (req : Request) (store : RStore) (faults : RedisFaults)
    (breakers : List (String × Breaker)) (now : Nat) : List String :=
  (serve env req store faults breakers now).backendCalls

/-- The breakers of the gateway at startup (main.go lines 84-86). -/
def initialBreakers (now : Nat) : List (String × Breaker) :=
  [("auth-service", Breaker.new now), ("go-api", Breaker.new now),
   ("python-processor", Breaker.new now)]

/-! ## Service registry (router/registry.go) -/

structure ServiceRegistry where
  services : List (String × List String)
  current : List (String × Nat)

def NewServiceRegistry : ServiceRegistry := ⟨[], []⟩

/-- RegisterService: replace the endpoint list of the name and reset its
cursor to 0 (map assignment is modelled by shadowing cons). -/
def ServiceRegistry.registerService (sr : ServiceRegistry) (name : String)
    (endpoints : List String) : ServiceRegistry :=
  ⟨(name, endpoints) :: sr.services, (name, 0) :: sr.current⟩

/-- GetEndpoint: empty string when the name is unknown or has no endpoints;
otherwise the endpoint under the cursor, advancing the cursor modulo the list
length.  A missing cursor entry reads as the Go zero value 0. -/
def ServiceRegistry.getEndpoint (sr : ServiceRegistry) (name : String) :
    String × ServiceRegistry :=
  match List.lookup name sr.services with
  | none => ("", sr)
  | some endpoints =>
    if endpoints.length = 0 then ("", sr)
    else
      let idx := (List.lookup name sr.current).getD 0
      let endpoint := endpoints.getD idx ""
      (endpoint, { sr with current := (name, (idx + 1) % endpoints.length) :: sr.current })

/-- The result of the n-th GetEndpoint call (0-based) in a run of successive
calls for the same name. -/
def ServiceRegistry.getN (sr : ServiceRegistry) (name : String) : Nat → String
  | 0 => (sr.getEndpoint name).1
  | n + 1 => ((sr.getEndpoint name).2).getN name n

/-! ## Theorems -/

/-- C6: a request on the auth route while the auth-service breaker is Open
and its timeout has not elapsed is rejected: beforeRequest fails with
ErrOpenState (the wrapped function is not invoked), the gateway answers 503
with exactly the JSON body of circuitbreaker.go, and no backend is called. -/
theorem C6_open_rejects_503
    (env : Env) (req : Request) (store store' : RStore) (faults : RedisFaults)
    (breakers : List (String × Breaker)) (now : Nat) (br : Breaker)
    (hroute : routeOf req = .auth) (hm : req.method ≠ "OPTIONS")
    (hrl : rlStep gatewayRL faults store now (clientKey req) = (true, store'))
    (hbr : List.lookup "auth-service" breakers = some br)
    (hst : br.state = .opened) (htime : br.openTimedOut now = false) :
    (br.beforeRequest now).2 = .reject .errOpenState ∧
    serveResp env req store faults breakers now = (503, breakerOpenBody) ∧
    serveCalls env req store faults breakers now = [] := by
  have hbefore : br.beforeRequest now = (br, .reject .errOpenState) := by
    unfold Breaker.beforeRequest Breaker.currentState
    rw [hst]
    simp [htime, hst]
  refine ⟨by rw [hbefore], ?_, ?_⟩ <;>
    simp [serveResp, serveCalls, serve, gatewayHandle, corsHandler, hm, router, hroute,
      rateLimit, hrl, cbMiddleware, World.getBreaker, hbr, hbefore, World.setBreaker,
      RWriter.finalize, RWriter.writeHeader, RWriter.write, emptyWriter]

/-- C10: when Execute rejects with an error other than ErrOpenState — the
half-open over-admission rejection ErrTooManyRequests, which rejects before
the wrapped handler runs — the middleware writes nothing, so the client
receives an empty 200 response; no backend is called.  Shown on the auth
route with the auth-service breaker half-open and MaxRequests admissions
already outstanding. -/
theorem C10_swallowed_error_200
    (env : Env) (req : Request) (store store' : RStore) (faults : RedisFaults)
    (breakers : List (String × Breaker)) (now : Nat) (br : Breaker)
    (hroute : routeOf req = .auth) (hm : req.method ≠ "OPTIONS")
    (hrl : rlStep gatewayRL faults store now (clientKey req) = (true, store'))
    (hbr : List.lookup "auth-service" breakers = some br)
    (hst : br.state = .halfOpen) (hfull : cbMaxRequests ≤ br.counts.requests) :
    (br.beforeRequest now).2 = .reject .errTooManyRequests ∧
    serveResp env req store faults breakers now = (200, "") ∧
    serveCalls env req store faults breakers now = [] := by
  have hbefore : br.beforeRequest now = (br, .reject .errTooManyRequests) := by
    unfold Breaker.beforeRequest Breaker.currentState
    rw [hst]
    simp [hst, hfull]
  refine ⟨by rw [hbefore], ?_, ?_⟩ <;>
    simp [serveResp, serveCalls, serve, gatewayHandle, corsHandler, hm, router, hroute,
      rateLimit, hrl, cbMiddleware, World.getBreaker, hbr, hbefore, World.setBreaker,
      RWriter.finalize, emptyWriter]

/-- C2 fails as stated: main.go wires the protected data route as
r.Use(rateLimiter.RateLimit); r.Use(jwtMiddleware.Authenticate);
r.Use(goAPICB.Middleware) — the authenticator runs before the circuit
breaker.  Concrete refutation: a GET /api/v1/data/x with no Authorization
header while the go-api breaker is Open (timeout not elapsed) is answered
401 by the authenticator, not 503 by the breaker, so the breaker stage did
not run before the authenticator stage. -/
theorem C2_counterexample :
    serveResp ⟨fun _ _ => (200, "ok"), fun _ => none⟩
        ⟨"GET", "/api/v1/data/x", [], "1.2.3.4", none, none⟩ [] noFaults
        [("go-api", ⟨.opened, Counts.clear, some 1000, 7⟩)] 500
      = (401, jsonErr "unauthorized" "missing authorization header") ∧
    (serveResp ⟨fun _ _ => (200, "ok"), fun _ => none⟩
        ⟨"GET", "/api/v1/data/x", [], "1.2.3.4", none, none⟩ [] noFaults
        [("go-api", ⟨.opened, Counts.clear, some 1000, 7⟩)] 500).1 ≠ 503 := by
  constructor <;> decide

/-- C2, amended: on the protected data route the stages run in the order
rate limiter, then authenticator, then circuit breaker, then forwarding.
The four conjuncts pin the order observationally: (1) a missing credential
is rejected 401 by the authenticator even when the breaker is Open, with no
breaker hypothesis at all; (2) with a valid credential an Open breaker
answers 503 without any backend call; (3) a rate-limit denial answers 429
before any authentication; (4) when every stage admits, the backend is
called once with the authenticated context and its response is returned. -/
theorem C2_amended_pipeline_order :
    (∀ (env : Env) (req : Request) (store store' : RStore) (faults : RedisFaults)
       (breakers : List (String × Breaker)) (now : Nat),
       routeOf req = .data → req.method ≠ "OPTIONS" →
       req.getHeader "Authorization" = "" →
       rlStep gatewayRL faults store now (clientKey req) = (true, store') →
       serveResp env req store faults breakers now
         = (401, jsonErr "unauthorized" "missing authorization header") ∧
       serveCalls env req store faults breakers now = []) ∧
    (∀ (env : Env) (req : Request) (s : String) (t : JWTTok) (store store' : RStore)
       (faults : RedisFaults) (breakers : List (String × Breaker)) (now : Nat)
       (br : Breaker),
       routeOf req = .data → req.method ≠ "OPTIONS" →
       req.getHeader "Authorization" ≠ "" →
       splitSpaces (req.getHeader "Authorization") = ["Bearer", s] →
       jwtParse env.tokens jwtSecret s = .ok t →
       rlStep gatewayRL faults store now (clientKey req) = (true, store') →
       List.lookup "go-api" breakers = some br →
       br.state = .opened → br.openTimedOut now = false →
       serveResp env req store faults breakers now = (503, breakerOpenBody) ∧
       serveCalls env req store faults breakers now = []) ∧
    (∀ (env : Env) (req : Request) (store : RStore) (faults : RedisFaults)
       (breakers : List (String × Breaker)) (now : Nat),
       routeOf req = .data → req.method ≠ "OPTIONS" →
       (rlStep gatewayRL faults store now (clientKey req)).1 = false →
       serveResp env req store faults breakers now = (429, rateLimitBody) ∧
       serveCalls env req store faults breakers now = []) ∧
    (∀ (env : Env) (req : Request) (s : String) (t : JWTTok) (store store' : RStore)
       (faults : RedisFaults) (breakers : List (String × Breaker)) (now : Nat)
       (br : Breaker),
       routeOf req = .data → req.method ≠ "OPTIONS" →
       req.getHeader "Authorization" ≠ "" →
       splitSpaces (req.getHeader "Authorization") = ["Bearer", s] →
       jwtParse env.tokens jwtSecret s = .ok t →
       rlStep gatewayRL faults store now (clientKey req) = (true, store') →
       List.lookup "go-api" breakers = some br →
       br.state = .closed → br.closedRolls now = false →
       serveResp env req store faults breakers now
         = env.backend "go-api"
             { req with ctxUserId := some t.userId, ctxEmail := some t.email } ∧
       serveCalls env req store faults breakers now = ["go-api"]) := by
  refine ⟨?_, ?_, ?_, ?_⟩
  · intro env req store store' faults breakers now hroute hm hhdr hrl
    constructor <;>
      simp [serveResp, serveCalls, serve, gatewayHandle, corsHandler, hm, router, hroute,
        rateLimit, hrl, authenticate, hhdr, World.writeErr, RWriter.finalize,
        RWriter.writeHeader, RWriter.write, emptyWriter]
  · intro env req s t store store' faults breakers now br hroute hm hne hsplit hparse hrl
      hbr hst htime
    have hbefore : br.beforeRequest now = (br, .reject .errOpenState) := by
      unfold Breaker.beforeRequest Breaker.currentState
      rw [hst]
      simp [htime, hst]
    constructor <;>
      simp [serveResp, serveCalls, serve, gatewayHandle, corsHandler, hm, router, hroute,
        rateLimit, hrl, authenticate, hne, hsplit, hparse, cbMiddleware,
        World.getBreaker, hbr, hbefore, World.setBreaker, World.writeErr,
        RWriter.finalize, RWriter.writeHeader, RWriter.write, emptyWriter]
  · intro env req store faults breakers now hroute hm hden
    constructor <;>
      simp [serveResp, serveCalls, serve, gatewayHandle, corsHandler, hm, router, hroute,
        rateLimit, hden, RWriter.finalize, RWriter.writeHeader, RWriter.write, emptyWriter]
  · intro env req s t store store' faults breakers now br hroute hm hne hsplit hparse hrl
      hbr hst hroll
    have hbefore : br.beforeRequest now
        = ({ br with counts := br.counts.onRequest }, .grant br.generation) := by
      unfold Breaker.beforeRequest Breaker.currentState
      rw [hst]
      simp [hroll, hst]
    constructor <;>
      simp [serveResp, serveCalls, serve, gatewayHandle, corsHandler, hm, router, hroute,
        rateLimit, hrl, authenticate, hne, hsplit, hparse, cbMiddleware,
        World.getBreaker, hbr, hbefore, World.setBreaker, createProxy, hm,
        capturedStatus, RWriter.finalize, RWriter.writeHeader, RWriter.write, emptyWriter]

/-- C1 fails as stated: the claim's own example input — OPTIONS
/api/v1/data/x with no Authorization header (and no CORS pre-flight header)
— is answered 401 by the JWT middleware of the protected data route, not 200
with an empty body.  (No backend is contacted, but the promised response is
wrong.) -/
theorem C1_counterexample :
    serveResp ⟨fun _ _ => (200, "ok"), fun _ => none⟩
        ⟨"OPTIONS", "/api/v1/data/x", [], "1.2.3.4", none, none⟩ [] noFaults
        (initialBreakers 100) 100
      = (401, jsonErr "unauthorized" "missing authorization header") ∧
    serveResp ⟨fun _ _ => (200, "ok"), fun _ => none⟩
        ⟨"OPTIONS", "/api/v1/data/x", [], "1.2.3.4", none, none⟩ [] noFaults
        (initialBreakers 100) 100
      ≠ (200, "") := by
  constructor <;> decide

/-- C1, amended: an OPTIONS request is answered 200 with an empty body and
never forwarded in exactly these cases: (1) a CORS pre-flight (carrying
Access-Control-Request-Method), intercepted by the CORS middleware on any
path; (2) a non-pre-flight OPTIONS on the auth route, and (3) on the process
route, provided the rate limiter and the breaker of the route let it through; and (4) a
non-pre-flight OPTIONS on the protected data route only when it carries a
valid bearer token (with the rate limiter and breaker letting it through).  A
non-pre-flight OPTIONS on the data route without a valid Authorization
header is instead rejected 401 by the authenticator. -/
theorem C1_amended_options_handling :
    (∀ (env : Env) (req : Request) (store : RStore) (faults : RedisFaults)
       (breakers : List (String × Breaker)) (now : Nat),
       req.method = "OPTIONS" →
       req.getHeader "Access-Control-Request-Method" ≠ "" →
       serveResp env req store faults breakers now = (200, "") ∧
       serveCalls env req store faults breakers now = []) ∧
    (∀ (env : Env) (req : Request) (store store' : RStore) (faults : RedisFaults)
       (breakers : List (String × Breaker)) (now : Nat) (br : Breaker),
       routeOf req = .auth → req.method = "OPTIONS" →
       req.getHeader "Access-Control-Request-Method" = "" →
       rlStep gatewayRL faults store now (clientKey req) = (true, store') →
       List.lookup "auth-service" breakers = some br →
       br.state = .closed → br.closedRolls now = false →
       serveResp env req store faults breakers now = (200, "") ∧
       serveCalls env req store faults breakers now = []) ∧
    (∀ (env : Env) (req : Request) (store store' : RStore) (faults : RedisFaults)
       (breakers : List (String × Breaker)) (now : Nat) (br : Breaker),
       routeOf req = .process → req.method = "OPTIONS" →
       req.getHeader "Access-Control-Request-Method" = "" →
       rlStep gatewayRL faults store now (clientKey req) = (true, store') →
       List.lookup "python-processor" breakers = some br →
       br.state = .closed → br.closedRolls now = false →
       serveResp env req store faults breakers now = (200, "") ∧
       serveCalls env req store faults breakers now = []) ∧
    (∀ (env : Env) (req : Request) (s : String) (t : JWTTok) (store store' : RStore)
       (faults : RedisFaults) (breakers : List (String × Breaker)) (now : Nat)
       (br : Breaker),
       routeOf req = .data → req.method = "OPTIONS" →
       req.getHeader "Access-Control-Request-Method" = "" →
       req.getHeader "Authorization" ≠ "" →
       splitSpaces (req.getHeader "Authorization") = ["Bearer", s] →
       jwtParse env.tokens jwtSecret s = .ok t →
       rlStep gatewayRL faults store now (clientKey req) = (true, store') →
       List.lookup "go-api" breakers = some br →
       br.state = .closed → br.closedRolls now = false →
       serveResp env req store faults breakers now = (200, "") ∧
       serveCalls env req store faults breakers now = []) := by
  refine ⟨?_, ?_, ?_, ?_⟩
  · intro env req store faults breakers now hm hpre
    constructor <;>
      simp [serveResp, serveCalls, serve, gatewayHandle, corsHandler, hm, hpre,
        RWriter.finalize, RWriter.writeHeader, emptyWriter]
  · intro env req store store' faults breakers now br hroute hm hpre hrl hbr hst hroll
    have hbefore : br.beforeRequest now
        = ({ br with counts := br.counts.onRequest }, .grant br.generation) := by
      unfold Breaker.beforeRequest Breaker.currentState
      rw [hst]
      simp [hroll, hst]
    constructor <;>
      simp [serveResp, serveCalls, serve, gatewayHandle, corsHandler, hm, hpre, router,
        hroute, rateLimit, hrl, cbMiddleware, World.getBreaker, hbr, hbefore,
        World.setBreaker, createProxy, capturedStatus, RWriter.finalize,
        RWriter.writeHeader, emptyWriter]
  · intro env req store store' faults breakers now br hroute hm hpre hrl hbr hst hroll
    have hbefore : br.beforeRequest now
        = ({ br with counts := br.counts.onRequest }, .grant br.generation) := by
      unfold Breaker.beforeRequest Breaker.currentState
      rw [hst]
      simp [hroll, hst]
    constructor <;>
      simp [serveResp, serveCalls, serve, gatewayHandle, corsHandler, hm, hpre, router,
        hroute, rateLimit, hrl, cbMiddleware, World.getBreaker, hbr, hbefore,
        World.setBreaker, createProxy, capturedStatus, RWriter.finalize,
        RWriter.writeHeader, emptyWriter]
  · intro env req s t store store' faults breakers now br hroute hm hpre hne hsplit
      hparse hrl hbr hst hroll
    have hbefore : br.beforeRequest now
        = ({ br with counts := br.counts.onRequest }, .grant br.generation) := by
      unfold Breaker.beforeRequest Breaker.currentState
      rw [hst]
      simp [hroll, hst]
    constructor <;>
      simp [serveResp, serveCalls, serve, gatewayHandle, corsHandler, hm, hpre, router,
        hroute, rateLimit, hrl, authenticate, hne, hsplit, hparse, cbMiddleware,
        World.getBreaker, hbr, hbefore, World.setBreaker, createProxy, capturedStatus,
        RWriter.finalize, RWriter.writeHeader, emptyWriter]

/-- C3 fails as stated: NewCircuitBreaker sets MaxRequests to 3, and
gobreaker only closes a half-open breaker after ConsecutiveSuccesses reaches
MaxRequests.  Concretely: a breaker opened by three failures (Open expiry
33) is probed at time 40; the call is admitted, succeeds, and the breaker is
HalfOpen afterwards, not Closed. -/
theorem C3_counterexample :
    (((((Breaker.new 0).execute 1 false).1.execute 2 false).1.execute 3 false).1.execute
        40 true).2 = none ∧
    (((((Breaker.new 0).execute 1 false).1.execute 2 false).1.execute 3 false).1.execute
        40 true).1.state = .halfOpen ∧
    (((((Breaker.new 0).execute 1 false).1.execute 2 false).1.execute 3 false).1.execute
        40 true).1.state ≠ .closed := by
  refine ⟨?_, ?_, ?_⟩ <;> decide

/-- C3, amended: for a breaker in the Open state whose Open timeout has
elapsed, the next Execute call is admitted and moves the breaker to
HalfOpen; a single success leaves it HalfOpen, and it returns to Closed
after MaxRequests (= 3) consecutive successful admitted calls. -/
theorem C3_amended_halfopen_recovery
    (br : Breaker) (now t2 t3 : Nat)
    (hst : br.state = .opened) (ht : br.openTimedOut now = true) :
    (br.execute now true).2 = none ∧
    (br.execute now true).1.state = .halfOpen ∧
    (((br.execute now true).1.execute t2 true).1.execute t3 true).1.state = .closed := by
  have h1 : br.currentState now
      = ⟨.halfOpen, Counts.clear, none, br.generation + 1⟩ := by
    unfold Breaker.currentState
    rw [hst]
    simp [ht, Breaker.setState, hst, Breaker.toNewGeneration]
  have e1 : br.execute now true
      = (⟨.halfOpen, ⟨1, 1, 0, 1, 0⟩, none, br.generation + 1⟩, none) := by
    unfold Breaker.execute Breaker.beforeRequest
    rw [h1]
    simp [cbMaxRequests, Counts.clear, Counts.onRequest, Breaker.afterRequest,
      Breaker.currentState, Breaker.recordSuccess, Counts.onSuccess, Breaker.setState]
  have e2 : ∀ (g t : Nat),
      (⟨.halfOpen, ⟨1, 1, 0, 1, 0⟩, none, g⟩ : Breaker).execute t true
        = (⟨.halfOpen, ⟨2, 2, 0, 2, 0⟩, none, g⟩, none) := by
    intro g t
    simp [Breaker.execute, Breaker.beforeRequest, Breaker.currentState, cbMaxRequests,
      Counts.onRequest, Breaker.afterRequest, Breaker.recordSuccess, Counts.onSuccess,
      Breaker.setState]
  have e3 : ∀ (g t : Nat),
      (⟨.halfOpen, ⟨2, 2, 0, 2, 0⟩, none, g⟩ : Breaker).execute t true
        = (⟨.closed, Counts.clear, some (t + cbInterval), g + 1⟩, none) := by
    intro g t
    simp [Breaker.execute, Breaker.beforeRequest, Breaker.currentState, cbMaxRequests,
      Counts.onRequest, Breaker.afterRequest, Breaker.recordSuccess, Counts.onSuccess,
      Breaker.setState, Breaker.toNewGeneration, cbInterval, Counts.clear]
  refine ⟨?_, ?_, ?_⟩
  · rw [e1]
  · rw [e1]
  · rw [e1]
    simp only []
    rw [e2, e3]

/-- One Execute with a failing outcome against a closed breaker whose
Interval has not elapsed: the request is admitted, the failure is recorded,
and the breaker trips to Open exactly when ReadyToTrip holds of the updated
tally. -/
theorem closed_execute_fail_step (cts : Counts) (exp : Option Nat) (g now : Nat)
    (hroll : Breaker.closedRolls ⟨.closed, cts, exp, g⟩ now = false) :
    Breaker.execute ⟨.closed, cts, exp, g⟩ now false
      = (if readyToTrip (cts.onRequest.onFailure)
         then ⟨.opened, Counts.clear, some (now + cbTimeout), g + 1⟩
         else ⟨.closed, cts.onRequest.onFailure, exp, g⟩, none) := by
  have hroll2 : Breaker.closedRolls ⟨.closed, cts.onRequest, exp, g⟩ now = false := hroll
  by_cases hrt : readyToTrip (cts.onRequest.onFailure) <;>
    simp [hrt, Breaker.execute, Breaker.beforeRequest, Breaker.currentState, hroll,
      hroll2, Breaker.afterRequest, Breaker.recordFailure, Breaker.setState,
      Breaker.toNewGeneration]

/-- One Execute with a successful outcome against a closed breaker whose
Interval has not elapsed: the success is tallied and the breaker stays
Closed (ReadyToTrip is never consulted on a success). -/
theorem closed_execute_success_step (cts : Counts) (exp : Option Nat) (g now : Nat)
    (hroll : Breaker.closedRolls ⟨.closed, cts, exp, g⟩ now = false) :
    Breaker.execute ⟨.closed, cts, exp, g⟩ now true
      = (⟨.closed, cts.onRequest.onSuccess, exp, g⟩, none) := by
  have hroll2 : Breaker.closedRolls ⟨.closed, cts.onRequest, exp, g⟩ now = false := hroll
  simp [Breaker.execute, Breaker.beforeRequest, Breaker.currentState, hroll, hroll2,
    Breaker.afterRequest, Breaker.recordSuccess]

/-- C5 fails as stated: ReadyToTrip is only consulted when a failure is
recorded.  Concretely: from a fresh breaker, the outcome sequence failure,
failure, success leaves a tally of 3 requests with 2 failures — at least 3
requests and a failure share of 2/3, at least 0.6 — yet the breaker is
still Closed, not Open. -/
theorem C5_counterexample :
    ((((Breaker.new 0).execute 1 false).1.execute 2 false).1.execute 3 true).1.state
      = .closed ∧
    ((((Breaker.new 0).execute 1 false).1.execute 2 false).1.execute 3 true).1.state
      ≠ .opened ∧
    readyToTrip
      ((((Breaker.new 0).execute 1 false).1.execute 2 false).1.execute 3 true).1.counts ∧
    3 ≤ ((((Breaker.new 0).execute 1 false).1.execute 2 false).1.execute
        3 true).1.counts.requests := by
  refine ⟨?_, ?_, ?_, ?_⟩ <;> decide

/-- C5, amended: the trip condition (at least 3 requests in the tally window
and a failure share of at least 0.6) is evaluated only when a failure
outcome is recorded.  For a closed breaker within its tally window: a
failing Execute trips it to Open exactly when the updated tally satisfies
the condition; a successful Execute always leaves it Closed; and, as the
claim says in particular, 3 consecutive Execute calls whose captured
response status is at least 500 drive a fresh breaker to Open. -/
theorem C5_amended_trip_condition :
    (∀ (cts : Counts) (exp : Option Nat) (g now : Nat),
       Breaker.closedRolls ⟨.closed, cts, exp, g⟩ now = false →
       ((Breaker.execute ⟨.closed, cts, exp, g⟩ now false).1.state = .opened ↔
         readyToTrip (cts.onRequest.onFailure))) ∧
    (∀ (cts : Counts) (exp : Option Nat) (g now : Nat),
       Breaker.closedRolls ⟨.closed, cts, exp, g⟩ now = false →
       (Breaker.execute ⟨.closed, cts, exp, g⟩ now true).1.state = .closed) ∧
    (∀ (t0 t1 t2 t3 s1 s2 s3 : Nat),
       500 ≤ s1 → 500 ≤ s2 → 500 ≤ s3 →
       t1 ≤ t0 + cbInterval → t2 ≤ t0 + cbInterval → t3 ≤ t0 + cbInterval →
       ((((Breaker.new t0).execute t1 (decide (s1 < 500))).1.execute t2
           (decide (s2 < 500))).1.execute t3 (decide (s3 < 500))).1.state = .opened) := by
  refine ⟨?_, ?_, ?_⟩
  · intro cts exp g now hroll
    rw [closed_execute_fail_step cts exp g now hroll]
    by_cases hrt : readyToTrip (cts.onRequest.onFailure) <;> simp [hrt]
  · intro cts exp g now hroll
    rw [closed_execute_success_step cts exp g now hroll]
  · intro t0 t1 t2 t3 s1 s2 s3 hs1 hs2 hs3 ht1 ht2 ht3
    have ds1 : (decide (s1 < 500)) = false := decide_eq_false (Nat.not_lt.mpr hs1)
    have ds2 : (decide (s2 < 500)) = false := decide_eq_false (Nat.not_lt.mpr hs2)
    have ds3 : (decide (s3 < 500)) = false := decide_eq_false (Nat.not_lt.mpr hs3)
    have hnew : Breaker.new t0 = ⟨.closed, Counts.clear, some (t0 + cbInterval), 1⟩ := by
      simp [Breaker.new, Breaker.toNewGeneration, cbInterval]
    have hcr : ∀ (c : Counts) (g t : Nat), t ≤ t0 + cbInterval →
        Breaker.closedRolls ⟨.closed, c, some (t0 + cbInterval), g⟩ t = false := by
      intro c g t ht
      simp [Breaker.closedRolls, Nat.not_lt.mpr ht]
    have f1 : (Breaker.new t0).execute t1 false
        = (⟨.closed, ⟨1, 0, 1, 0, 1⟩, some (t0 + cbInterval), 1⟩, none) := by
      rw [hnew, closed_execute_fail_step _ _ _ _ (hcr _ _ _ ht1)]
      simp [Counts.clear, Counts.onRequest, Counts.onFailure, readyToTrip]
    have f2 : (⟨.closed, ⟨1, 0, 1, 0, 1⟩, some (t0 + cbInterval), 1⟩ : Breaker).execute
          t2 false
        = (⟨.closed, ⟨2, 0, 2, 0, 2⟩, some (t0 + cbInterval), 1⟩, none) := by
      rw [closed_execute_fail_step _ _ _ _ (hcr _ _ _ ht2)]
      simp [Counts.onRequest, Counts.onFailure, readyToTrip]
    have f3 : (⟨.closed, ⟨2, 0, 2, 0, 2⟩, some (t0 + cbInterval), 1⟩ : Breaker).execute
          t3 false
        = (⟨.opened, Counts.clear, some (t3 + cbTimeout), 2⟩, none) := by
      rw [closed_execute_fail_step _ _ _ _ (hcr _ _ _ ht3)]
      simp [Counts.onRequest, Counts.onFailure, readyToTrip]
    simp only [ds1, ds2, ds3, f1, f2, f3]

/-- The token environment of the C4 refutation: one token signed with the
wrong secret, one using a non-HMAC signing algorithm, one expired. -/
def jwtFailEnv : Env :=
  ⟨fun _ _ => (200, "ok"), fun s =>
    if s = "wrongsig" then some ⟨.hmac, "other-secret", false, "u", "e"⟩
    else if s = "badalg" then some ⟨.other, jwtSecret, false, "u", "e"⟩
    else if s = "expired" then some ⟨.hmac, jwtSecret, true, "u", "e"⟩
    else none⟩

def jwtReq (t : String) : Request :=
  ⟨"GET", "/api/v1/data/x", [("Authorization", "Bearer " ++ t)], "9.9.9.9", none, none⟩

/-- C4 fails as stated: the JWT middleware maps every jwt.Parse error to the
single message "invalid token", so a wrong-secret token, a
disallowed-algorithm token and an expired token produce three identical 401
bodies — the error reasons are not pairwise distinct. -/
theorem C4_counterexample :
    serveResp jwtFailEnv (jwtReq "wrongsig") [] noFaults (initialBreakers 5) 5
      = (401, jsonErr "unauthorized" "invalid token") ∧
    serveResp jwtFailEnv (jwtReq "badalg") [] noFaults (initialBreakers 5) 5
      = (401, jsonErr "unauthorized" "invalid token") ∧
    serveResp jwtFailEnv (jwtReq "expired") [] noFaults (initialBreakers 5) 5
      = (401, jsonErr "unauthorized" "invalid token") ∧
    serveResp jwtFailEnv (jwtReq "wrongsig") [] noFaults (initialBreakers 5) 5
      = serveResp jwtFailEnv (jwtReq "expired") [] noFaults (initialBreakers 5) 5 := by
  refine ⟨?_, ?_, ?_, ?_⟩ <;> decide

/-- C4, amended: the authenticator does reject a token signed with a
different secret, a token using a non-HMAC signing algorithm, and an expired
token — jwt.Parse classifies them as three different errors — but the 401
body surfaces the same reason, "invalid token", for every parse error. -/
theorem C4_amended_uniform_reject :
    (∀ (tokens : String → Option JWTTok) (s : String) (t : JWTTok),
       tokens s = some t →
       (t.alg ≠ .hmac → jwtParse tokens jwtSecret s = .error .badAlg) ∧
       (t.alg = .hmac → t.signedWith ≠ jwtSecret →
         jwtParse tokens jwtSecret s = .error .badSig) ∧
       (t.alg = .hmac → t.signedWith = jwtSecret → t.expired = true →
         jwtParse tokens jwtSecret s = .error .expiredTok)) ∧
    (∀ (env : Env) (req : Request) (s : String) (e : JWTErr) (store store' : RStore)
       (faults : RedisFaults) (breakers : List (String × Breaker)) (now : Nat),
       routeOf req = .data → req.method ≠ "OPTIONS" →
       req.getHeader "Authorization" ≠ "" →
       splitSpaces (req.getHeader "Authorization") = ["Bearer", s] →
       rlStep gatewayRL faults store now (clientKey req) = (true, store') →
       jwtParse env.tokens jwtSecret s = .error e →
       serveResp env req store faults breakers now
         = (401, jsonErr "unauthorized" "invalid token") ∧
       serveCalls env req store faults breakers now = []) := by
  refine ⟨?_, ?_⟩
  · intro tokens s t h
    refine ⟨?_, ?_, ?_⟩
    · intro halg
      simp [jwtParse, h, halg]
    · intro halg hsig
      simp [jwtParse, h, halg, hsig]
    · intro halg hsig hexp
      simp [jwtParse, h, halg, hsig, hexp]
  · intro env req s e store store' faults breakers now hroute hm hne hsplit hrl hparse
    constructor <;>
      simp [serveResp, serveCalls, serve, gatewayHandle, corsHandler, hm, router, hroute,
        rateLimit, hrl, authenticate, hne, hsplit, hparse, World.writeErr,
        RWriter.finalize, RWriter.writeHeader, RWriter.write, emptyWriter]

/-- Filling the window: while the stored counter k (at least 1, TTL e) plus
the remaining requests still fits under the limit and every request time is
before the expiry, each request is allowed and the counter ends at k plus
the number of requests, keeping its TTL. -/
theorem rlRun_window (cfg : RLCfg) (key : String) (e : Nat) :
    ∀ (ts : List Nat) (k : Nat) (store : RStore),
      redisLookup store key = some (k, some e) →
      (∀ t ∈ ts, t < e) → 1 ≤ k → k + ts.length ≤ cfg.limit →
      (rlRun cfg key store ts).1 = List.replicate ts.length true ∧
      redisLookup (rlRun cfg key store ts).2 key = some (k + ts.length, some e)
  | [], k, store => by
    intro hl _ _ _
    simpa [rlRun] using hl
  | t :: ts, k, store => by
    intro hl htl hk hle
    have ht : t < e := htl t (List.mem_cons_self t ts)
    have hklt : ¬ (cfg.limit ≤ k) := by
      simp only [List.length_cons] at hle
      omega
    have hstep : rlStep cfg noFaults store t key
        = (true, redisIncrExpire store key k t cfg.duration) := by
      simp [rlStep, noFaults, redisGet, hl, ht, hklt]
    have hkne : ¬ (k = 0) := by omega
    have hl' : List.lookup key store = some (k, some e) := hl
    have hstore' :
        redisLookup (redisIncrExpire store key k t cfg.duration) key
          = some (k + 1, some e) := by
      simp [redisIncrExpire, hl, hl', ht, hkne, redisInsert, redisLookup, List.lookup]
    have hrec := rlRun_window cfg key e ts (k + 1)
      (redisIncrExpire store key k t cfg.duration) hstore'
      (fun t' ht' => htl t' (List.mem_cons_of_mem t ht')) (by omega)
      (by simp only [List.length_cons] at hle; omega)
    refine ⟨?_, ?_⟩
    · simp only [rlRun, hstep, List.length_cons, List.replicate_succ]
      exact congrArg (List.cons true) hrec.1
    · simp only [rlRun, hstep, List.length_cons]
      rw [hrec.2]
      congr 2
      omega

/-- C7: for a limiter of limit L and window D against a reachable store and
a fresh client key, the first L requests inside the window are all allowed
and the next request inside the window is denied; at the gateway a denial is
answered 429 with exactly the JSON body of ratelimit.go, with no backend
call; and the gateway's limiter is configured with L = 100, D = 60 s, so the
101st request within 60 seconds is the denied one. -/
theorem C7_rate_limit_window (cfg : RLCfg) (key : String) (store : RStore) (t0 : Nat)
    (rest : List Nat) (tNext : Nat)
    (hfresh : redisLookup store key = none)
    (hlen : rest.length + 1 = cfg.limit)
    (hrest : ∀ t ∈ rest, t < t0 + cfg.duration)
    (hnext : tNext < t0 + cfg.duration) :
    (rlRun cfg key store (t0 :: rest)).1 = List.replicate cfg.limit true ∧
    (rlStep cfg noFaults (rlRun cfg key store (t0 :: rest)).2 tNext key).1 = false ∧
    gatewayRL = ⟨100, 60⟩ ∧
    (∀ (env : Env) (req : Request) (store₂ : RStore) (faults : RedisFaults)
       (breakers : List (String × Breaker)) (now : Nat),
       routeOf req = .auth → req.method ≠ "OPTIONS" →
       (rlStep gatewayRL faults store₂ now (clientKey req)).1 = false →
       serveResp env req store₂ faults breakers now = (429, rateLimitBody) ∧
       serveCalls env req store₂ faults breakers now = []) := by
  have hfresh' : List.lookup key store = none := hfresh
  have hlim : ¬ (cfg.limit ≤ 0) := by omega
  have hstep0 : rlStep cfg noFaults store t0 key
      = (true, redisIncrExpire store key 0 t0 cfg.duration) := by
    simp [rlStep, noFaults, redisGet, hfresh, hlim]
  have hstore1 :
      redisLookup (redisIncrExpire store key 0 t0 cfg.duration) key
        = some (1, some (t0 + cfg.duration)) := by
    simp [redisIncrExpire, redisLookup, hfresh', redisInsert, List.lookup]
  have hwin := rlRun_window cfg key (t0 + cfg.duration) rest 1
    (redisIncrExpire store key 0 t0 cfg.duration) hstore1 hrest (by omega) (by omega)
  have hrun1 : (rlRun cfg key store (t0 :: rest)).1 = List.replicate cfg.limit true := by
    simp only [rlRun, hstep0]
    rw [← hlen, List.replicate_succ]
    exact congrArg (List.cons true) hwin.1
  have hrunStore : redisLookup (rlRun cfg key store (t0 :: rest)).2 key
      = some (cfg.limit, some (t0 + cfg.duration)) := by
    simp only [rlRun, hstep0]
    rw [hwin.2]
    congr 2
    omega
  refine ⟨hrun1, ?_, rfl, ?_⟩
  · simp [rlStep, noFaults, redisGet, hrunStore, hnext]
  · intro env req store₂ faults breakers now hroute hm hden
    constructor <;>
      simp [serveResp, serveCalls, serve, gatewayHandle, corsHandler, hm, router, hroute,
        rateLimit, hden, RWriter.finalize, RWriter.writeHeader, RWriter.write, emptyWriter]

/-- C8: the rate limiter fails open on store unavailability.  If the initial
GET errors with anything other than key-absent, the request is allowed with
the store untouched; if the increment pipeline errors, likewise; a denial
can only ever happen with the GET succeeding and the read count at or above
the limit — never because of store failure.  At the gateway, a request
served while the store is down still reaches the backend. -/
theorem C8_fail_open (cfg : RLCfg) (faults : RedisFaults) (store : RStore) (now : Nat)
    (key : String) :
    (faults.getFails = true → rlStep cfg faults store now key = (true, store)) ∧
    (faults.getFails = false → faults.execFails = true →
      (redisGet store key now).getD 0 < cfg.limit →
      rlStep cfg faults store now key = (true, store)) ∧
    ((rlStep cfg faults store now key).1 = false →
      faults.getFails = false ∧ cfg.limit ≤ (redisGet store key now).getD 0) ∧
    (∀ (env : Env) (req : Request) (store₂ : RStore)
       (breakers : List (String × Breaker)) (now₂ : Nat) (br : Breaker),
       routeOf req = .auth → req.method ≠ "OPTIONS" →
       List.lookup "auth-service" breakers = some br →
       br.state = .closed → br.closedRolls now₂ = false →
       serveCalls env req store₂ ⟨true, false⟩ breakers now₂ = ["auth-service"] ∧
       serveResp env req store₂ ⟨true, false⟩ breakers now₂
         = env.backend "auth-service" req) := by
  refine ⟨?_, ?_, ?_, ?_⟩
  · intro hget
    simp [rlStep, hget]
  · intro hget hexec hcnt
    simp [rlStep, hget, hexec, Nat.not_le.mpr hcnt]
  · intro hden
    by_cases hget : faults.getFails
    · simp [rlStep, hget] at hden
    · refine ⟨by simp [hget], ?_⟩
      by_cases hcnt : cfg.limit ≤ (redisGet store key now).getD 0
      · exact hcnt
      · by_cases hexec : faults.execFails <;>
          simp [rlStep, hget, hcnt, hexec] at hden
  · intro env req store₂ breakers now₂ br hroute hm hbr hst hroll
    have hbefore : br.beforeRequest now₂
        = ({ br with counts := br.counts.onRequest }, .grant br.generation) := by
      unfold Breaker.beforeRequest Breaker.currentState
      rw [hst]
      simp [hroll, hst]
    have hrl : rlStep gatewayRL ⟨true, false⟩ store₂ now₂ (clientKey req)
        = (true, store₂) := by
      simp [rlStep]
    constructor <;>
      simp [serveResp, serveCalls, serve, gatewayHandle, corsHandler, hm, router, hroute,
        rateLimit, hrl, cbMiddleware, World.getBreaker, hbr, hbefore, World.setBreaker,
        createProxy, capturedStatus, RWriter.finalize, RWriter.writeHeader,
        RWriter.write, emptyWriter]

/-- Round-robin invariant: with the endpoint list of the name registered and
its cursor at c (a valid index), the i-th successive GetEndpoint call
returns the endpoint at index (c + i) modulo the list length. -/
theorem getN_cycle (name : String) (eps : List String) :
    ∀ (i c : Nat) (sSvc : List (String × List String)) (sCur : List (String × Nat)),
      c < eps.length →
      ServiceRegistry.getN ⟨(name, eps) :: sSvc, (name, c) :: sCur⟩ name i
        = eps.getD ((c + i) % eps.length) ""
  | 0, c, sSvc, sCur => by
    intro hc
    have hne : ¬ (eps.length = 0) := by omega
    simp [ServiceRegistry.getN, ServiceRegistry.getEndpoint, List.lookup, hne,
      Nat.mod_eq_of_lt hc]
  | i + 1, c, sSvc, sCur => by
    intro hc
    have hne : ¬ (eps.length = 0) := by omega
    have hstep : (ServiceRegistry.getEndpoint ⟨(name, eps) :: sSvc, (name, c) :: sCur⟩
          name).2
        = ⟨(name, eps) :: sSvc, (name, (c + 1) % eps.length) :: (name, c) :: sCur⟩ := by
      simp [ServiceRegistry.getEndpoint, List.lookup, hne]
    have hrec := getN_cycle name eps i ((c + 1) % eps.length) sSvc
      ((name, c) :: sCur) (Nat.mod_lt _ (by omega))
    simp only [ServiceRegistry.getN, hstep, hrec, Nat.mod_add_mod]
    congr 2
    omega

/-- C9: after registering a non-empty list of endpoints for a name, the i-th
successive GetEndpoint call returns the endpoint at index i modulo the list
length — the sequence cycles in registration order with period the list
length, starting at cursor 0 — and GetEndpoint returns the empty string for
an unknown name or a name with an empty endpoint list. -/
theorem C9_round_robin :
    (∀ (sr : ServiceRegistry) (name : String) (eps : List String) (i : Nat),
       eps ≠ [] →
       (sr.registerService name eps).getN name i = eps.getD (i % eps.length) "") ∧
    (∀ (sr : ServiceRegistry) (name : String),
       List.lookup name sr.services = none → (sr.getEndpoint name).1 = "") ∧
    (∀ (sr : ServiceRegistry) (name : String),
       List.lookup name sr.services = some [] → (sr.getEndpoint name).1 = "") := by
  refine ⟨?_, ?_, ?_⟩
  · intro sr name eps i hne
    have hpos : 0 < eps.length := List.length_pos.mpr hne
    have := getN_cycle name eps i 0 sr.services sr.current hpos
    simpa [ServiceRegistry.registerService] using this
  · intro sr name hl
    simp [ServiceRegistry.getEndpoint, hl]
  · intro sr name hl
    simp [ServiceRegistry.getEndpoint, hl]

/-! ## Concrete fixtures for the witnesses -/

def sinkEnv : Env := ⟨fun _ _ => (200, "ok"), fun _ => none⟩

def goodTokEnv : Env :=
  ⟨fun _ _ => (200, "backend-data"),
   fun s => if s = "tok1" then some ⟨.hmac, jwtSecret, false, "u1", "e1"⟩ else none⟩

def wAuthGet : Request := ⟨"GET", "/api/v1/auth/login", [], "1.2.3.4", none, none⟩

def wAuthOpt : Request := ⟨"OPTIONS", "/api/v1/auth/login", [], "1.2.3.4", none, none⟩

def wProcOpt : Request := ⟨"OPTIONS", "/api/v1/process/run", [], "1.2.3.4", none, none⟩

def wDataGet : Request := ⟨"GET", "/api/v1/data/x", [], "1.2.3.4", none, none⟩

def wDataTok : Request :=
  ⟨"GET", "/api/v1/data/x", [("Authorization", "Bearer tok1")], "1.2.3.4", none, none⟩

def wDataOptTok : Request :=
  ⟨"OPTIONS", "/api/v1/data/x", [("Authorization", "Bearer tok1")], "1.2.3.4", none, none⟩

def wPreflight : Request :=
  ⟨"OPTIONS", "/api/v1/data/x", [("Access-Control-Request-Method", "GET")], "1.2.3.4",
   none, none⟩

def wOpenBr : Breaker := ⟨.opened, Counts.clear, some 1000, 7⟩

def wClosedBr : Breaker := ⟨.closed, Counts.clear, some 1000, 1⟩

def wHalfOpenFullBr : Breaker := ⟨.halfOpen, ⟨3, 0, 0, 0, 0⟩, none, 7⟩

def wTrippedBr : Breaker := ⟨.opened, Counts.clear, some 33, 2⟩

def wStore50 : RStore := [("ratelimit:1.2.3.4", 1, some 110)]

def wStore5 : RStore := [("ratelimit:9.9.9.9", 1, some 65)]

def wTok1 : JWTTok := ⟨.hmac, jwtSecret, false, "u1", "e1"⟩

theorem C6_witness :
    routeOf wAuthGet = .auth ∧
    serveResp sinkEnv wAuthGet [] noFaults [("auth-service", wOpenBr)] 50
      = (503, breakerOpenBody) :=
  ⟨by decide,
   (C6_open_rejects_503 sinkEnv wAuthGet [] wStore50 noFaults
      [("auth-service", wOpenBr)] 50 wOpenBr (by decide) (by decide) (by decide)
      (by decide) (by decide) (by decide)).2.1⟩

theorem C10_witness :
    cbMaxRequests ≤ wHalfOpenFullBr.counts.requests ∧
    serveResp sinkEnv wAuthGet [] noFaults [("auth-service", wHalfOpenFullBr)] 50
      = (200, "") :=
  ⟨by decide,
   (C10_swallowed_error_200 sinkEnv wAuthGet [] wStore50 noFaults
      [("auth-service", wHalfOpenFullBr)] 50 wHalfOpenFullBr (by decide) (by decide)
      (by decide) (by decide) (by decide) (by decide)).2.1⟩

theorem C2_witness :
    serveResp sinkEnv wDataGet [] noFaults [("go-api", wOpenBr)] 50
      = (401, jsonErr "unauthorized" "missing authorization header") ∧
    serveResp goodTokEnv wDataTok [] noFaults [("go-api", wOpenBr)] 50
      = (503, breakerOpenBody) ∧
    serveResp sinkEnv wDataGet [("ratelimit:1.2.3.4", 100, some 1000)] noFaults [] 50
      = (429, rateLimitBody) ∧
    serveCalls goodTokEnv wDataTok [] noFaults [("go-api", wClosedBr)] 50 = ["go-api"] :=
  ⟨(C2_amended_pipeline_order.1 sinkEnv wDataGet [] wStore50 noFaults
      [("go-api", wOpenBr)] 50 (by decide) (by decide) (by decide) (by decide)).1,
   (C2_amended_pipeline_order.2.1 goodTokEnv wDataTok "tok1" wTok1 [] wStore50 noFaults
      [("go-api", wOpenBr)] 50 wOpenBr (by decide) (by decide) (by decide) (by decide)
      (by rfl) (by decide) (by decide) (by decide) (by decide)).1,
   (C2_amended_pipeline_order.2.2.1 sinkEnv wDataGet
      [("ratelimit:1.2.3.4", 100, some 1000)] noFaults [] 50 (by decide) (by decide)
      (by decide)).1,
   (C2_amended_pipeline_order.2.2.2 goodTokEnv wDataTok "tok1" wTok1 [] wStore50 noFaults
      [("go-api", wClosedBr)] 50 wClosedBr (by decide) (by decide) (by decide)
      (by decide) (by rfl) (by decide) (by decide) (by decide) (by decide)).2⟩

theorem C1_witness :
    serveResp sinkEnv wPreflight [] noFaults [] 50 = (200, "") ∧
    serveResp sinkEnv wAuthOpt [] noFaults [("auth-service", wClosedBr)] 50 = (200, "") ∧
    serveResp sinkEnv wProcOpt [] noFaults [("python-processor", wClosedBr)] 50
      = (200, "") ∧
    serveResp goodTokEnv wDataOptTok [] noFaults [("go-api", wClosedBr)] 50 = (200, "") :=
  ⟨(C1_amended_options_handling.1 sinkEnv wPreflight [] noFaults [] 50 (by decide)
      (by decide)).1,
   (C1_amended_options_handling.2.1 sinkEnv wAuthOpt [] wStore50 noFaults
      [("auth-service", wClosedBr)] 50 wClosedBr (by decide) (by decide) (by decide)
      (by decide) (by decide) (by decide) (by decide)).1,
   (C1_amended_options_handling.2.2.1 sinkEnv wProcOpt [] wStore50 noFaults
      [("python-processor", wClosedBr)] 50 wClosedBr (by decide) (by decide) (by decide)
      (by decide) (by decide) (by decide) (by decide)).1,
   (C1_amended_options_handling.2.2.2 goodTokEnv wDataOptTok "tok1" wTok1 [] wStore50
      noFaults [("go-api", wClosedBr)] 50 wClosedBr (by decide) (by decide) (by decide)
      (by decide) (by decide) (by rfl) (by decide) (by decide) (by decide)
      (by decide)).1⟩

theorem C3_witness :
    wTrippedBr.state = .opened ∧ wTrippedBr.openTimedOut 40 = true ∧
    (wTrippedBr.execute 40 true).1.state = .halfOpen ∧
    (((wTrippedBr.execute 40 true).1.execute 41 true).1.execute 42 true).1.state
      = .closed :=
  ⟨by decide, by decide,
   (C3_amended_halfopen_recovery wTrippedBr 40 41 42 (by decide) (by decide)).2.1,
   (C3_amended_halfopen_recovery wTrippedBr 40 41 42 (by decide) (by decide)).2.2⟩

theorem C4_witness :
    jwtParse jwtFailEnv.tokens jwtSecret "badalg" = .error .badAlg ∧
    serveResp jwtFailEnv (jwtReq "wrongsig") [] noFaults [] 5
      = (401, jsonErr "unauthorized" "invalid token") :=
  ⟨((C4_amended_uniform_reject.1 jwtFailEnv.tokens "badalg"
      ⟨.other, jwtSecret, false, "u", "e"⟩ (by rfl)).1 (by decide)),
   (C4_amended_uniform_reject.2 jwtFailEnv (jwtReq "wrongsig") "wrongsig" .badSig []
      wStore5 noFaults [] 5 (by decide) (by decide) (by decide) (by decide) (by decide)
      (by rfl)).1⟩

theorem C5_witness :
    ((((Breaker.new 0).execute 1 (decide (500 < 500))).1.execute 2
        (decide (500 < 500))).1.execute 3 (decide (500 < 500))).1.state = .opened :=
  C5_amended_trip_condition.2.2 0 1 2 3 500 500 500 (by decide) (by decide) (by decide)
    (by decide) (by decide) (by decide)

theorem C7_witness :
    (rlRun gatewayRL "k" [] (0 :: List.replicate 99 1)).1
      = List.replicate gatewayRL.limit true ∧
    (rlStep gatewayRL noFaults (rlRun gatewayRL "k" [] (0 :: List.replicate 99 1)).2 2
        "k").1 = false :=
  ⟨(C7_rate_limit_window gatewayRL "k" [] 0 (List.replicate 99 1) 2 (by decide)
      (by decide) (by decide) (by decide)).1,
   (C7_rate_limit_window gatewayRL "k" [] 0 (List.replicate 99 1) 2 (by decide)
      (by decide) (by decide) (by decide)).2.1⟩

theorem C8_witness :
    rlStep gatewayRL ⟨true, false⟩ [] 0 "k" = (true, []) ∧
    serveCalls sinkEnv wAuthGet [] ⟨true, false⟩ [("auth-service", wClosedBr)] 50
      = ["auth-service"] :=
  ⟨(C8_fail_open gatewayRL ⟨true, false⟩ [] 0 "k").1 (by decide),
   ((C8_fail_open gatewayRL ⟨true, false⟩ [] 0 "k").2.2.2 sinkEnv wAuthGet []
      [("auth-service", wClosedBr)] 50 wClosedBr (by decide) (by decide) (by decide)
      (by decide) (by decide)).1⟩

theorem C9_witness :
    (NewServiceRegistry.registerService "svc" ["a", "b"]).getN "svc" 3
      = ["a", "b"].getD (3 % 2) "" :=
  C9_round_robin.1 NewServiceRegistry "svc" ["a", "b"] 3 (by decide)
